import Mathlib

/-!
Verification development for the macaw-openvoice TTS worker entry point
(`src/macaw/workers/tts/main.py`) and the health/engine helpers pinned by
the unit tests. Python coroutines are shallowly embedded as pure functions
that return the trace of observable events (log lines, RPC calls, server
lifecycle steps) together with the exception, if any, that escapes.
-/

/-- Exceptions that the embedded Python code can raise or propagate. -/
inductive Exc where
  | valueError (msg : String)
  | loadError (msg : String)
  | unloadError (msg : String)
  | synthError (msg : String)
  | keyboardInterrupt
  | otherError (msg : String)
deriving Repr, DecidableEq

/-- An audio chunk produced by a TTS backend (payload abstracted to a size). -/
structure Chunk where
  nbytes : Nat
deriving Repr, DecidableEq

/-- Model of the `TTSBackend` interface used by `main.py`: `load` may fail,
`synthesize` either fails (at generator creation or first pull) or yields a
finite stream of chunks, `unload` may fail. -/
structure TTSBackend where
  load : String → List (String × String) → Except Exc Unit
  synthesize : String → Except Exc (List Chunk)
  unload : Except Exc Unit

/-- Observable events of the worker process, in program order. -/
inductive Event where
  | logInfo (msg : String)
  | logWarning (msg : String)
  | loadCall (modelPath : String)
  | warmupSynthesize (text : String) (chunksPulled : Nat)
  | serverStart (port : Nat)
  | serverStop (grace : ℚ)
  | unloadCall
  | waitForTermination
deriving Repr, DecidableEq

/-- Embeds `STOP_GRACE_PERIOD = 5.0` (seconds) from `main.py`. -/
def STOP_GRACE_PERIOD : ℚ := 5

/-- Embeds `_create_backend`: returns the kokoro backend for `"kokoro"`,
the qwen3 backend for `"qwen3-tts"`, and raises
`ValueError("Engine TTS nao suportada: …")` for any other name. The two
backend constructors are parameters of the model. -/
def create_backend (engine : String) (kokoro qwen3 : TTSBackend) :
    Except Exc TTSBackend :=
  if engine = "kokoro" then .ok kokoro
  else if engine = "qwen3-tts" then .ok qwen3
  else .error (.valueError ("Engine TTS nao suportada: " ++ engine))

/-- Distinguishes exceptions in Python's `Exception` hierarchy from
`BaseException`-only exceptions: `KeyboardInterrupt` derives from
`BaseException` but not from `Exception`, so an `except Exception` clause
does not catch it; every other modelled exception is an `Exception`. -/
def isException : Exc → Bool
  | .keyboardInterrupt => false
  | _ => true

/-- Embeds `_warmup_backend`: inside a `try`, iterate
`backend.synthesize("warmup")` and `break` after the first chunk (so at most
one chunk is pulled), log `warmup_complete`; `except Exception` catches an
`Exception` and logs `warmup_failed`, while a `BaseException`-only
exception such as `KeyboardInterrupt` escapes (second component). Only the
event trace and the escaping exception are returned: no chunk is returned
or stored. -/
def warmup_backend (backend : TTSBackend) : List Event × Option Exc :=
  match backend.synthesize "warmup" with
  | .ok stream =>
      ([.warmupSynthesize "warmup" (min 1 stream.length), .logInfo "warmup_complete"],
       none)
  | .error e =>
      if isException e then
        ([.warmupSynthesize "warmup" 0, .logWarning "warmup_failed"], none)
      else
        ([.warmupSynthesize "warmup" 0], some e)

/-- Embeds the startup part of `serve` (through `server.start()` and
`await server.wait_for_termination()`): create the backend, log and
`await backend.load(...)`, warm up — an exception escaping the warmup (a
`KeyboardInterrupt`, which `except Exception` does not catch) escapes
`serve`, so the server is never started — then build the servicer and
start the gRPC server. Returns the event trace and the exception escaping
`serve`, if any. -/
def serve (port : Nat) (engine : String) (model_path : String)
    (engine_config : List (String × String)) (kokoro qwen3 : TTSBackend) :
    List Event × Option Exc :=
  match create_backend engine kokoro qwen3 with
  | .error e => ([], some e)
  | .ok backend =>
      match backend.load model_path engine_config with
      | .error e => ([.logInfo "loading_model", .loadCall model_path], some e)
      | .ok _ =>
          let w := warmup_backend backend
          match w.2 with
          | some e =>
              ([.logInfo "loading_model", .loadCall model_path,
                .logInfo "model_loaded"] ++ w.1,
               some e)
          | none =>
              ([.logInfo "loading_model", .loadCall model_path,
                .logInfo "model_loaded"]
                ++ w.1
                ++ [.serverStart port, .logInfo "worker_started",
                    .waitForTermination],
               none)

/-- Embeds `_shutdown`: a no-op when `shutting_down` is already set;
otherwise it sets the flag (before any `await`, so a re-entrant call sees
it), logs `shutdown_start`, awaits `server.stop(STOP_GRACE_PERIOD)`, awaits
`backend.unload()` — whose exception, if raised, propagates uncaught — and
logs `shutdown_complete`. Returns the new flag, the event trace, and the
escaping exception, if any. -/
def shutdown (backend : TTSBackend) (shutting_down : Bool) :
    Bool × List Event × Option Exc :=
  if shutting_down then (true, [], none)
  else
    match backend.unload with
    | .error e =>
        (true, [.logInfo "shutdown_start", .serverStop STOP_GRACE_PERIOD, .unloadCall],
         some e)
    | .ok _ =>
        (true, [.logInfo "shutdown_start", .serverStop STOP_GRACE_PERIOD, .unloadCall,
                .logInfo "shutdown_complete"],
         none)

/-- Delivers `n` shutdown signals (SIGTERM/SIGINT) in sequence: each signal
schedules one run of `shutdown` against the current flag, as the signal
handler in `serve` does. Returns the final flag and the concatenated trace. -/
def deliverSignals (backend : TTSBackend) : Nat → Bool × List Event
  | 0 => (false, [])
  | n + 1 =>
      let prev := deliverSignals backend n
      let step := shutdown backend prev.1
      (step.1, prev.2 ++ step.2.1)

/-- Outcome of the `main` entry point: a process exit with a status code, or
an exception propagating out of `main`. -/
inductive MainOutcome where
  | exitCode (code : Nat)
  | raised (e : Exc)
deriving Repr, DecidableEq

/-- Embeds `main` (translated as `worker_main`; `main` is reserved in Lean): runs `asyncio.run(serve(...))` — whose outcome (the
exception escaping it, if any) is the parameter — catches
`KeyboardInterrupt` to log `worker_interrupted` and `sys.exit(0)`; any other
exception propagates, and a normal return exits the process with status 0. -/
def worker_main (runOutcome : Option Exc) : MainOutcome × List Event :=
  match runOutcome with
  | some .keyboardInterrupt => (.exitCode 0, [.logInfo "worker_interrupted"])
  | some e => (.raised e, [])
  | none => (.exitCode 0, [])

/-- Lifecycle states of a worker (spec §4.2). -/
inductive WorkerState where
  | starting
  | ready
  | stopping
  | stopped
  | crashed
deriving Repr, DecidableEq

/-- Health statuses reported by the Health Aggregator (spec §4.4). -/
inductive HealthStatus where
  | ok
  | loading
  | degraded
deriving Repr, DecidableEq

/-- Health snapshot exposed at `/health` (spec §6). -/
structure HealthReport where
  status : HealthStatus
  workersReady : Nat
  workersTotal : Nat
deriving Repr, DecidableEq

/-- Modelled from the spec: the Health Aggregator (`create_app` health
endpoint of `macaw.server.app`, absent from src/, pinned by
`tests/unit/test_health_endpoint.py`). Spec §4.4: `degraded` when at least
one worker is `Crashed` (precedence over `loading`), `loading` when at
least one worker is `Starting` and none are `Crashed`, `ok` when all
workers are `Ready` or there are zero workers. Snapshots outside those
three spec cases fall through to `ok`. -/
def healthStatus (workers : List WorkerState) : HealthStatus :=
  if workers.any (· = .crashed) then .degraded
  else if workers.any (· = .starting) then .loading
  else .ok

/-- Modelled from the spec: the health snapshot also reports the `ready`
and `total` worker counts (spec §4.4, §6). -/
def healthReport (workers : List WorkerState) : HealthReport :=
  { status := healthStatus workers
    workersReady := (workers.filter (· = .ready)).length
    workersTotal := workers.length }

/-- Modelled from the spec: the engine-to-package mapping `ENGINE_PACKAGE`
of `macaw.engines`, absent from src/. Its unit tests
(`tests/unit/test_engines.py`) fix that `"faster-whisper"` and `"kokoro"`
are known engines mapped to importable package names, and that names
outside the mapping pass through. -/
def ENGINE_PACKAGE : List (String × String) :=
  [("faster-whisper", "faster_whisper"), ("kokoro", "kokoro")]

/-- Modelled from the spec: `macaw.engines.is_engine_available`, absent
from src/ and pinned by `tests/unit/test_engines.py`: for an engine in
`ENGINE_PACKAGE` it returns whether `importlib.util.find_spec` finds the
engine package (the oracle `find_spec` parameter, patched in the tests);
for an engine outside the mapping it returns `True` (pass-through). -/
def is_engine_available (find_spec : String → Bool) (engine : String) : Bool :=
  match ENGINE_PACKAGE.lookup engine with
  | some pkg => find_spec pkg
  | none => true

/-- A concrete backend all of whose calls succeed, for witnesses. -/
def okBackend : TTSBackend :=
  { load := fun _ _ => .ok ()
    synthesize := fun _ => .ok [⟨16⟩, ⟨16⟩]
    unload := .ok () }

/-- A concrete backend whose warmup synthesis raises. -/
def failingSynthBackend : TTSBackend :=
  { load := fun _ _ => .ok ()
    synthesize := fun _ => .error (.synthError "cuda oom")
    unload := .ok () }

/-- A concrete backend whose `unload` raises. -/
def failingUnloadBackend : TTSBackend :=
  { load := fun _ _ => .ok ()
    synthesize := fun _ => .ok [⟨16⟩]
    unload := .error (.unloadError "boom") }

/-- A concrete backend whose warmup synthesis is interrupted by
`KeyboardInterrupt` (possible: signal handlers are installed only after
warmup). -/
def kbInterruptSynthBackend : TTSBackend :=
  { load := fun _ _ => .ok ()
    synthesize := fun _ => .error .keyboardInterrupt
    unload := .ok () }

/-- Recognizes a `Load` RPC event. -/
def isLoadCall : Event → Bool
  | .loadCall _ => true
  | _ => false

/-- Recognizes a `server.stop` event. -/
def isServerStop : Event → Bool
  | .serverStop _ => true
  | _ => false

/-- Recognizes an `Unload` RPC event. -/
def isUnloadCall : Event → Bool
  | .unloadCall => true
  | _ => false

/-- The warmup trace contains no `Load` RPC. -/
theorem warmup_backend_no_loadCall (b : TTSBackend) :
    (warmup_backend b).1.filter isLoadCall = [] := by
  unfold warmup_backend
  cases hs : b.synthesize "warmup" with
  | ok stream => simp [isLoadCall]
  | error e => cases he : isException e <;> simp [he, isLoadCall]

/-- C1: for every engine name other than `"kokoro"` and `"qwen3-tts"`,
`_create_backend` raises a typed `ValueError` (`Engine TTS nao suportada`),
and `serve` then fails with that error with an empty event trace: no
`backend.load` call is made and no server resource is acquired. -/
theorem unsupported_engine_fails_before_load (engine : String)
    (kokoro qwen3 : TTSBackend) (port : Nat) (model_path : String)
    (engine_config : List (String × String))
    (h1 : engine ≠ "kokoro") (h2 : engine ≠ "qwen3-tts") :
    create_backend engine kokoro qwen3
      = .error (.valueError ("Engine TTS nao suportada: " ++ engine)) ∧
    serve port engine model_path engine_config kokoro qwen3
      = ([], some (.valueError ("Engine TTS nao suportada: " ++ engine))) := by
  constructor
  · simp [create_backend, h1, h2]
  · simp [serve, create_backend, h1, h2]

/-- Witness for C1 at the spec scenario engine name `"unknown-engine"`. -/
theorem unsupported_engine_fails_before_load_witness :
    create_backend "unknown-engine" okBackend okBackend
      = .error (.valueError "Engine TTS nao suportada: unknown-engine") ∧
    serve 50052 "unknown-engine" "/models/x" [] okBackend okBackend
      = ([], some (.valueError "Engine TTS nao suportada: unknown-engine")) := by
  have h := unsupported_engine_fails_before_load "unknown-engine" okBackend okBackend
    50052 "/models/x" [] (by decide) (by decide)
  simpa using h

/-- C2 counterexample: the claim fails as stated at a warmup interrupted by
`KeyboardInterrupt`: `except Exception` does not catch it, so it escapes
`serve`, no `warmup_failed` is logged, and the server is never started. -/
theorem warmup_keyboard_interrupt_blocks_startup :
    (serve 50052 "kokoro" "/models/x" [] kbInterruptSynthBackend okBackend).2
      = some .keyboardInterrupt ∧
    Event.serverStart 50052
        ∉ (serve 50052 "kokoro" "/models/x" [] kbInterruptSynthBackend okBackend).1 ∧
    Event.logWarning "warmup_failed"
        ∉ (serve 50052 "kokoro" "/models/x" [] kbInterruptSynthBackend okBackend).1 := by
  refine ⟨rfl, ?_, ?_⟩ <;>
    simp [serve, create_backend, warmup_backend, isException,
      kbInterruptSynthBackend]

/-- C2 (amended): when the warmup synthesis raises any exception of
Python's `Exception` hierarchy, `serve` logs `warmup_failed` and still
starts the gRPC server — the trace contains the warning and `serverStart`,
and nothing escapes `serve`; only a `BaseException` outside `Exception`
(such as `KeyboardInterrupt`) escapes instead. -/
theorem warmup_failure_nonfatal (port : Nat) (model_path : String)
    (engine_config : List (String × String)) (b qwen3 : TTSBackend) (e : Exc)
    (hload : b.load model_path engine_config = .ok ())
    (hsynth : b.synthesize "warmup" = .error e)
    (hexc : isException e = true) :
    Event.logWarning "warmup_failed"
        ∈ (serve port "kokoro" model_path engine_config b qwen3).1 ∧
    Event.serverStart port
        ∈ (serve port "kokoro" model_path engine_config b qwen3).1 ∧
    (serve port "kokoro" model_path engine_config b qwen3).2 = none := by
  simp [serve, create_backend, hload, warmup_backend, hsynth, hexc]

/-- Witness for C2 at a backend whose warmup synthesis raises a
`RuntimeError`-like `Exception`. -/
theorem warmup_failure_nonfatal_witness :
    Event.logWarning "warmup_failed"
        ∈ (serve 50052 "kokoro" "/models/x" [] failingSynthBackend okBackend).1 ∧
    Event.serverStart 50052
        ∈ (serve 50052 "kokoro" "/models/x" [] failingSynthBackend okBackend).1 ∧
    (serve 50052 "kokoro" "/models/x" [] failingSynthBackend okBackend).2 = none :=
  warmup_failure_nonfatal 50052 "/models/x" [] failingSynthBackend okBackend
    (.synthError "cuda oom") rfl rfl rfl

/-- After at least one delivered signal, the `shutting_down` flag is set and
the accumulated trace is exactly the trace of the first shutdown run. -/
theorem deliverSignals_stable (b : TTSBackend) :
    ∀ n, 1 ≤ n → deliverSignals b n = (true, (deliverSignals b 1).2) := by
  intro n hn
  induction n with
  | zero => omega
  | succ m ih =>
    rcases Nat.eq_zero_or_pos m with h0 | hpos
    · subst h0
      show deliverSignals b 1 = _
      cases hu : b.unload <;> simp [deliverSignals, shutdown, hu]
    · have hm := ih hpos
      show (let prev := deliverSignals b m
            let step := shutdown b prev.1
            (step.1, prev.2 ++ step.2.1)) = _
      rw [hm]
      simp [shutdown]

/-- C3: no matter how many shutdown signals are delivered, the shutdown
sequence runs at most once: the accumulated trace after `n ≥ 1` signals
equals the trace of a single shutdown, it contains exactly one
`server.stop` and one `Unload`, and a shutdown invocation that finds the
`shutting_down` flag set returns immediately with an empty trace. -/
theorem shutdown_at_most_once (b : TTSBackend) (n : Nat) (hn : 1 ≤ n) :
    (deliverSignals b n).2 = (deliverSignals b 1).2 ∧
    ((deliverSignals b n).2.filter isServerStop).length = 1 ∧
    ((deliverSignals b n).2.filter isUnloadCall).length = 1 ∧
    shutdown b true = (true, [], none) := by
  have hstable := deliverSignals_stable b n hn
  have htr : (deliverSignals b n).2 = (deliverSignals b 1).2 := by
    rw [hstable]
  refine ⟨htr, ?_, ?_, rfl⟩ <;>
    · rw [htr]
      cases hu : b.unload <;>
        simp [deliverSignals, shutdown, hu, isServerStop, isUnloadCall]

/-- Witness for C3 with three signals against a concrete backend. -/
theorem shutdown_at_most_once_witness :
    (deliverSignals okBackend 3).2 = (deliverSignals okBackend 1).2 ∧
    ((deliverSignals okBackend 3).2.filter isServerStop).length = 1 ∧
    ((deliverSignals okBackend 3).2.filter isUnloadCall).length = 1 ∧
    shutdown okBackend true = (true, [], none) :=
  shutdown_at_most_once okBackend 3 (by decide)

/-- C4: against the spec, an `Unload` failure during graceful shutdown is
NOT caught by `_shutdown`: the exception escapes the shutdown coroutine, no
warning is logged for it, and `shutdown_complete` is never logged. Evaluated
at a concrete backend whose `unload` raises. -/
theorem unload_failure_escapes_shutdown :
    (shutdown failingUnloadBackend false).2.2 = some (.unloadError "boom") ∧
    (∀ m : String,
        Event.logWarning m ∉ (shutdown failingUnloadBackend false).2.1) ∧
    Event.logInfo "shutdown_complete"
        ∉ (shutdown failingUnloadBackend false).2.1 := by
  refine ⟨rfl, ?_, ?_⟩
  · intro m
    simp [shutdown, failingUnloadBackend]
  · simp [shutdown, failingUnloadBackend]

/-- C6: with a supported engine, `serve` issues exactly one `Load` RPC; if
`Load` fails the trace stops right there (no warmup, no server start) and
the error escapes; if `Load` succeeds, warmup runs next, and the server is
started exactly when the warmup returned (nothing escaped it) — so load and
warmup both complete before requests are accepted, and an escaping warmup
exception aborts startup. -/
theorem load_once_then_warmup_then_serve (port : Nat) (model_path : String)
    (engine_config : List (String × String)) (b : TTSBackend) :
    (((serve port "kokoro" model_path engine_config b b).1.filter isLoadCall).length
        = 1) ∧
    (∀ e, b.load model_path engine_config = .error e →
        serve port "kokoro" model_path engine_config b b
          = ([.logInfo "loading_model", .loadCall model_path], some e)) ∧
    (b.load model_path engine_config = .ok () →
        serve port "kokoro" model_path engine_config b b
          = ([.logInfo "loading_model", .loadCall model_path, .logInfo "model_loaded"]
              ++ (warmup_backend b).1
              ++ (if (warmup_backend b).2 = none
                  then [.serverStart port, .logInfo "worker_started",
                        .waitForTermination]
                  else []),
             (warmup_backend b).2)) := by
  refine ⟨?_, ?_, ?_⟩
  · cases hl : b.load model_path engine_config with
    | error e => simp [serve, create_backend, hl, isLoadCall]
    | ok u =>
        cases hw : (warmup_backend b).2 <;>
          simp [serve, create_backend, hl, hw, List.filter_append,
            warmup_backend_no_loadCall, isLoadCall]
  · intro e hl
    simp [serve, create_backend, hl]
  · intro hl
    cases hw : (warmup_backend b).2 <;>
      simp [serve, create_backend, hl, hw]

/-- Witness for C6 at a concrete backend whose load succeeds. -/
theorem load_once_then_warmup_then_serve_witness :
    serve 50052 "kokoro" "/models/x" [] okBackend okBackend
      = ([.logInfo "loading_model", .loadCall "/models/x", .logInfo "model_loaded",
          .warmupSynthesize "warmup" 1, .logInfo "warmup_complete",
          .serverStart 50052, .logInfo "worker_started", .waitForTermination],
         none) := by
  have h := (load_once_then_warmup_then_serve 50052 "/models/x" [] okBackend).2.2 rfl
  simpa [warmup_backend, okBackend] using h

/-- C7: graceful shutdown stops the gRPC server with the grace period
first, then issues `Unload`, then completes (after which
`wait_for_termination` returns and the process exits); the grace period
`STOP_GRACE_PERIOD` is 5 seconds. -/
theorem graceful_shutdown_order (b : TTSBackend) (hu : b.unload = .ok ()) :
    STOP_GRACE_PERIOD = 5 ∧
    shutdown b false
      = (true,
         [.logInfo "shutdown_start", .serverStop STOP_GRACE_PERIOD, .unloadCall,
          .logInfo "shutdown_complete"],
         none) := by
  refine ⟨rfl, ?_⟩
  simp [shutdown, hu]

/-- Witness for C7 at a concrete backend whose unload succeeds. -/
theorem graceful_shutdown_order_witness :
    STOP_GRACE_PERIOD = 5 ∧
    shutdown okBackend false
      = (true,
         [.logInfo "shutdown_start", .serverStop STOP_GRACE_PERIOD, .unloadCall,
          .logInfo "shutdown_complete"],
         none) :=
  graceful_shutdown_order okBackend rfl

/-- C5: the Health Aggregator maps a worker-state snapshot to exactly one
status: `degraded` whenever any worker is `Crashed` (regardless of the
other workers), `loading` whenever some worker is `Starting` and none is
`Crashed`, and `ok` whenever every worker is `Ready` (including the
zero-worker snapshot); the report also carries the ready and total worker
counts. -/
theorem health_aggregator_ok_loading_degraded (workers : List WorkerState) :
    ((∃ w ∈ workers, w = .crashed) → (healthReport workers).status = .degraded) ∧
    ((∃ w ∈ workers, w = .starting) ∧ (∀ w ∈ workers, w ≠ .crashed) →
        (healthReport workers).status = .loading) ∧
    ((∀ w ∈ workers, w = .ready) → (healthReport workers).status = .ok) ∧
    (healthReport workers).workersReady = (workers.filter (· = .ready)).length ∧
    (healthReport workers).workersTotal = workers.length := by
  refine ⟨?_, ?_, ?_, rfl, rfl⟩
  · rintro ⟨w, hw, hcr⟩
    have hany : workers.any (· = WorkerState.crashed) = true := by
      simp only [List.any_eq_true, decide_eq_true_eq]
      exact ⟨w, hw, hcr⟩
    simp [healthReport, healthStatus, hany]
  · rintro ⟨⟨w, hw, hst⟩, hnone⟩
    have hnocr : workers.any (· = WorkerState.crashed) = false := by
      simp only [List.any_eq_false, decide_eq_true_eq]
      exact hnone
    have hany : workers.any (· = WorkerState.starting) = true := by
      simp only [List.any_eq_true, decide_eq_true_eq]
      exact ⟨w, hw, hst⟩
    simp [healthReport, healthStatus, hnocr, hany]
  · intro hall
    have hnocr : workers.any (· = WorkerState.crashed) = false := by
      simp only [List.any_eq_false, decide_eq_true_eq]
      intro w hw
      rw [hall w hw]
      simp
    have hnost : workers.any (· = WorkerState.starting) = false := by
      simp only [List.any_eq_false, decide_eq_true_eq]
      intro w hw
      rw [hall w hw]
      simp
    simp [healthReport, healthStatus, hnocr, hnost]

/-- Witness for C5 at the snapshots exercised by the unit tests. -/
theorem health_aggregator_ok_loading_degraded_witness :
    (healthReport [.ready, .crashed]).status = .degraded ∧
    (healthReport [.ready, .starting]).status = .loading ∧
    (healthReport [.ready, .ready]).status = .ok ∧
    (healthReport ([] : List WorkerState)).status = .ok := by
  refine ⟨?_, ?_, ?_, ?_⟩
  · exact (health_aggregator_ok_loading_degraded [.ready, .crashed]).1
      ⟨.crashed, by simp, rfl⟩
  · exact (health_aggregator_ok_loading_degraded [.ready, .starting]).2.1
      ⟨⟨.starting, by simp, rfl⟩, by decide⟩
  · exact (health_aggregator_ok_loading_degraded [.ready, .ready]).2.2.1 (by decide)
  · exact (health_aggregator_ok_loading_degraded []).2.2.1 (by simp)

/-- C8: `is_engine_available` returns `True` for every engine name outside
the `ENGINE_PACKAGE` mapping, and for a known engine it returns exactly
whether `find_spec` locates the engine package. -/
theorem engine_availability_passthrough (find_spec : String → Bool)
    (engine : String) :
    (ENGINE_PACKAGE.lookup engine = none →
        is_engine_available find_spec engine = true) ∧
    (∀ pkg, ENGINE_PACKAGE.lookup engine = some pkg →
        is_engine_available find_spec engine = find_spec pkg) := by
  constructor
  · intro h
    simp [is_engine_available, h]
  · intro pkg h
    simp [is_engine_available, h]

/-- Witness for C8 at the three cases of the unit tests: known engine with
package present, known engine with package missing, unknown engine. -/
theorem engine_availability_passthrough_witness :
    is_engine_available (fun _ => true) "faster-whisper" = true ∧
    is_engine_available (fun _ => false) "kokoro" = false ∧
    is_engine_available (fun _ => false) "some-future-engine" = true := by
  refine ⟨?_, ?_, ?_⟩
  · exact (engine_availability_passthrough (fun _ => true) "faster-whisper").2
      "faster_whisper" (by decide)
  · exact (engine_availability_passthrough (fun _ => false) "kokoro").2
      "kokoro" (by decide)
  · exact (engine_availability_passthrough (fun _ => false) "some-future-engine").1
      (by decide)

/-- C9: for every backend, the warmup runs `synthesize` on the fixed text
`"warmup"`, pulls at most one chunk from the stream, and its entire return
value is one of the event traces below (completed, failure caught and
logged, or `KeyboardInterrupt` escaping) — no audio chunk is returned or
stored in any case. -/
theorem warmup_fixed_input_one_chunk (b : TTSBackend) :
    (∃ n, n ≤ 1 ∧
        warmup_backend b
          = ([.warmupSynthesize "warmup" n, .logInfo "warmup_complete"], none)) ∨
    warmup_backend b
      = ([.warmupSynthesize "warmup" 0, .logWarning "warmup_failed"], none) ∨
    (∃ e, isException e = false ∧
        warmup_backend b = ([.warmupSynthesize "warmup" 0], some e)) := by
  cases hs : b.synthesize "warmup" with
  | ok stream =>
      exact .inl ⟨min 1 stream.length, Nat.min_le_left 1 _,
        by simp [warmup_backend, hs]⟩
  | error e =>
      cases he : isException e with
      | true => exact .inr (.inl (by simp [warmup_backend, hs, he]))
      | false => exact .inr (.inr ⟨e, he, by simp [warmup_backend, hs, he]⟩)

/-- C10: a `KeyboardInterrupt` escaping `asyncio.run` is caught by `main`,
which logs `worker_interrupted` and exits the process with status code 0
instead of propagating the exception. -/
theorem keyboard_interrupt_exits_zero :
    worker_main (some .keyboardInterrupt)
      = (.exitCode 0, [.logInfo "worker_interrupted"]) := rfl
